import Mathlib

/-!
# Verification of the PDP-Tester product document pipeline

Shallow embedding of the two Python source files:

* `generate_product_docs.py` — the field-classification / document-layout
  engine (`create_product_document`), filename sanitization
  (`clean_filename`) and the `--product` CLI branch;
* `product_requester.py` — the OpenAI response parsing
  (`get_product_info_from_openai`) and the store insertion
  (`add_new_product`).

A product record is modelled as an ordered association list of
field-name/value pairs (Python iterates the JSON object in insertion
order; keys are unique in a Python dict).  The word-processing document
is modelled as the ordered list of render instructions the code issues;
the mutable `processed_fields` set is an explicit string list threaded
through the pass.
-/

namespace PDP

/-- One product record: ordered field-name/value pairs (a Python dict of
strings, iterated in insertion order). -/
abbrev Record := List (String × String)

/-- `product_data[k]` / `k in product_data`: first binding of `k`. -/
def getField (r : Record) (k : String) : Option String :=
  (r.find? (fun p => p.1 == k)).map Prod.snd

/-- `k in product_data` (presence test). -/
def hasField (r : Record) (k : String) : Bool :=
  (getField r k).isSome

/-- `k in product_data and product_data[k]`: present with truthy
(non-empty) value. -/
def truthyField (r : Record) (k : String) : Bool :=
  match getField r k with
  | some v => v != ""
  | none => false

/-- `pat` occurs as a contiguous run inside `l`. -/
def infixAux (pat : List Char) : List Char → Bool
  | [] => pat.isEmpty
  | c :: cs => pat.isPrefixOf (c :: cs) || infixAux pat cs

/-- Python `sub in s` substring test. -/
def containsSub (s pat : String) : Bool :=
  infixAux pat.data s.data

/-- Python `s.startswith(pre)`. -/
def pyStartsWith (s pre : String) : Bool :=
  pre.data.isPrefixOf s.data

/-- Python `s.lower()` (ASCII fragment). -/
def pyLower (s : String) : String :=
  String.mk (s.data.map Char.toLower)

/-- Accumulator pass for `pySplitWs`. -/
def wordsAux : List Char → List Char → List String
  | [], acc => if acc.isEmpty then [] else [String.mk acc.reverse]
  | c :: cs, acc =>
    if c.isWhitespace then
      if acc.isEmpty then wordsAux cs []
      else String.mk acc.reverse :: wordsAux cs []
    else wordsAux cs (c :: acc)

/-- Python `s.split()`: split on whitespace runs, dropping empty pieces. -/
def pySplitWs (s : String) : List String :=
  wordsAux s.data []

/-- Python `s.replace(c, repl)` for a one-character pattern. -/
def replaceChar (l : List Char) (c : Char) (repl : List Char) : List Char :=
  l.foldr (fun d acc => (if d == c then repl else [d]) ++ acc) []

/-- Join strings with a separator (Python `'sep'.join(...)`). -/
def joinWith (sep : String) : List String → String
  | [] => ""
  | [x] => x
  | x :: y :: xs => x ++ sep ++ joinWith sep (y :: xs)

/-- `key.split()[-1]` (the sources only apply it to names with at least
one token; `""` stands in for Python's IndexError on an all-blank name). -/
def lastToken (s : String) : String :=
  ((pySplitWs s).getLast?).getD ""

/-- Python `str.capitalize`: first character upper-cased, the rest
lower-cased (ASCII fragment). -/
def pyCapitalize (s : String) : String :=
  match s.data with
  | [] => ""
  | c :: cs => String.mk (c.toUpper :: cs.map Char.toLower)

/-- `is_title_field` from `generate_product_docs.py`: the name contains
one of the title keywords, case-insensitively. -/
def is_title_field (key : String) : Bool :=
  ["title", "name", "sku"].any (fun kw => containsSub (pyLower key) kw)

/-- `skip_fields` inside `format_field_name`. -/
def skip_fields : List String :=
  ["Main category", "Cost", "Landing Cost", "Bag size", "Bag Price", "price/lb"]

/-- `format_field_name`: `none` for the technical exclusion set, else
underscores to spaces, `/` spaced out, each word capitalized. -/
def format_field_name (key : String) : Option String :=
  if skip_fields.contains key then none
  else
    let formatted :=
      String.mk (replaceChar (replaceChar key.data '_' " ".data) '/' " / ".data)
    some (joinWith " " ((pySplitWs formatted).map pyCapitalize))

/-- `table1_fields` (Growing Conditions membership set, declaration
order). -/
def table1_fields : List String :=
  ["Sun Requirements (Full Sun, Full Sun to Partial Shade, Shade)",
   "Soil Preference",
   "Soil pH",
   "Days to Maturity",
   "Height when mature",
   "Seeding rate",
   "Planting Depth"]

/-- `table2_fields` (Plant Characteristics membership set, declaration
order). -/
def table2_fields : List String :=
  ["Sun/Shade",
   "Height when Mature",
   "Seeding Rate",
   "Uses",
   "Color",
   "Water",
   "Native/Introduced",
   "Life Form"]

/-- Render instructions: what `create_product_document` asks the (opaque)
docx renderer to do, in order.  Table rows carry the raw field names;
`add_table` applies `format_field_name` at render time. -/
inductive Instr where
  | titleInstr (text : String)
  | table (title : String) (pairs : List (String × String))
  | heading (level : Nat) (text : String)
  | labeledParagraph (label : String) (text : String)
  | paragraph (text : String)
  | steppedItem (num : String) (text : String)
  | faqItem (num : String) (text : String)
deriving DecidableEq, Repr

/-- `processed_fields.add k` (Python set add: idempotent). -/
def addField (processed : List String) (k : String) : List String :=
  if processed.contains k then processed else k :: processed

/-- Add every name of `ks` to the set, in order. -/
def addAll (processed : List String) (ks : List String) : List String :=
  ks.foldl addField processed

/-- The group-collect loop of lines 147-150 / 218-221: scan the whole
membership set in declaration order, keep each member present in the
record with a truthy value. -/
def collectGroup (fields : List String) (r : Record) : List (String × String) :=
  fields.filterMap (fun f =>
    match getField r f with
    | some v => if v != "" then some (f, v) else none
    | none => none)

/-- Gate of lines 209-214: for i = 1..5, no "Why chose this product
Title i" field may exist in the record without being processed. -/
def whyChoseDone (r : Record) (processed : List String) : Bool :=
  ["1", "2", "3", "4", "5"].all (fun i =>
    let tk := "Why chose this product Title " ++ i
    !(hasField r tk) || processed.contains tk)

/-- One iteration of the field loop of `create_product_document`
(lines 135-274): the instructions it emits and the updated
`processed_fields` set.  The branch order mirrors the source exactly;
note in particular that a closed Plant-Characteristics gate has no
`continue`, so the field falls through to the later rules, and that a
"Why chose ... Title N" whose paired content is missing is *not* marked
processed. -/
def step (r : Record) (key value : String) (processed : List String) :
    List Instr × List String :=
  if (value == "") || processed.contains key then
    ([], processed)
  else
    if (format_field_name key).isNone then ([], addField processed key)
    else
      if table1_fields.contains key && !(processed.contains key) then
        (if collectGroup table1_fields r != [] then
           [Instr.table "Growing Conditions" (collectGroup table1_fields r)]
         else [],
         addAll processed ((collectGroup table1_fields r).map Prod.fst))
      else if key == "SKU" || key == "Scientific Name / mix %" then
        ((if is_title_field key then [Instr.heading 2 value]
          else [Instr.labeledParagraph ((format_field_name key).getD "") value]),
         addField processed key)
      else if containsSub (pyLower key) "description" || containsSub (pyLower key) "what is" then
        ([Instr.labeledParagraph ((format_field_name key).getD "") value], addField processed key)
      else if containsSub (pyLower key) "why chose this product title" then
        if truthyField r ("Why chose this product " ++ lastToken key) then
          ([Instr.heading 3 value,
            Instr.paragraph ((getField r ("Why chose this product " ++ lastToken key)).getD "")],
           addField (addField processed key) ("Why chose this product " ++ lastToken key))
        else ([], processed)
      else if table2_fields.contains key && !(processed.contains key)
              && whyChoseDone r processed then
        (if collectGroup table2_fields r != [] then
           [Instr.table "Plant Characteristics" (collectGroup table2_fields r)]
         else [],
         addAll processed ((collectGroup table2_fields r).map Prod.fst))
      else if containsSub (pyLower key) "planting guide step" then
        ([Instr.steppedItem (lastToken key) value], addField processed key)
      else if pyStartsWith key "FAQ " then
        ([Instr.faqItem (lastToken key) value], addField processed key)
      else if containsSub (pyLower key) "why chose this product"
              && !(containsSub (pyLower key) "title") then
        ([], addField processed key)
      else if !(processed.contains key) then
        ((if is_title_field key then [Instr.heading 2 value]
          else [Instr.labeledParagraph ((format_field_name key).getD "") value]),
         addField processed key)
      else ([], processed)

/-- The field loop: left-to-right over the record's items, threading the
`processed_fields` set. -/
def processFields (r : Record) : List (String × String) → List String →
    List Instr × List String
  | [], processed => ([], processed)
  | (key, value) :: rest, processed =>
    let s := step r key value processed
    let restRes := processFields r rest s.2
    (s.1 ++ restRes.1, restRes.2)

/-- `create_product_document`: the title heading
(`product_data.get('Title', 'Unknown Product')`), then the field loop
started with `processed_fields = {'Title'}`.  Returns the emitted
instruction sequence and the final consumed-fields set. -/
def create_product_document (r : Record) : List Instr × List String :=
  let titleText := (getField r "Title").getD "Unknown Product"
  let res := processFields r r ["Title"]
  (Instr.titleInstr titleText :: res.1, res.2)

/-- `\w` of the source regexes (ASCII fragment): alphanumeric or
underscore. -/
def isWordChar (c : Char) : Bool := c.isAlphanum || c == '_'

/-- Character survives `re.sub(r'[^\w\s-]', '', name)`. -/
def keepChar (c : Char) : Bool := isWordChar c || c.isWhitespace || c == '-'

/-- Character matched by `[-\s]`. -/
def isCollapse (c : Char) : Bool := c == '-' || c.isWhitespace

/-- Worker for `collapseRuns`; the flag records whether the previous
character already belonged to a `[-\s]` run. -/
def collapseRunsAux : Bool → List Char → List Char
  | _, [] => []
  | inRun, c :: cs =>
    if isCollapse c then
      if inRun then collapseRunsAux true cs
      else '_' :: collapseRunsAux true cs
    else c :: collapseRunsAux false cs

/-- `re.sub(r'[-\s]+', '_', s)`: each maximal run of hyphen/whitespace
becomes a single underscore. -/
def collapseRuns (l : List Char) : List Char :=
  collapseRunsAux false l

/-- Python `s.strip('_')`. -/
def stripUnderscores (l : List Char) : List Char :=
  (((l.dropWhile (· == '_')).reverse.dropWhile (· == '_'))).reverse

/-- `clean_filename`: strip characters outside `[\w\s-]`, collapse
hyphen/whitespace runs to one underscore, trim underscores at both
ends. -/
def clean_filename (name : String) : String :=
  String.mk (stripUnderscores (collapseRuns (name.data.filter keepChar)))

/-! ## `product_requester.py`: response parsing and store insertion

`json.loads` is modelled by a recursive-descent parser for the JSON
fragment exercised here (objects, arrays, strings with the common
escapes, integers, booleans, null); like `json.loads` it accepts a value
only when the whole input is consumed up to trailing whitespace.  The
numeric rule covers integers only — every concrete response examined by
the claims uses integer literals. -/

/-- JSON values. -/
inductive JVal where
  | jnull
  | jbool (b : Bool)
  | jnum (n : Int)
  | jstr (s : String)
  | jarr (elems : List JVal)
  | jobj (fields : List (String × JVal))

/-- The four JSON whitespace characters. -/
def isJsonWs (c : Char) : Bool :=
  [' ', '\t', '\n', '\x0d'].any (fun w => c == w)

/-- Skip JSON whitespace. -/
def skipWs : List Char → List Char
  | [] => []
  | c :: cs => if isJsonWs c then skipWs cs else c :: cs

/-- The escape table of JSON strings: shorthand character and what it
denotes. -/
def escTable : List (Char × Char) :=
  [('"', '"'), ('\\', '\\'), ('/', '/'), ('n', '\n'), ('t', '\t'),
   ('r', '\x0d'), ('b', '\x08'), ('f', '\x0c')]

/-- Translate a JSON escape character via the table. -/
def escChar (c : Char) : Option Char :=
  (escTable.find? (fun p => p.1 == c)).map Prod.snd

/-- Parse the remainder of a JSON string (the opening quote already
consumed); returns the content and the rest of the input. -/
def parseStringAux : List Char → Option (List Char × List Char)
  | [] => none
  | c :: cs =>
    if c == '"' then some ([], cs)
    else if c == '\\' then
      match cs with
      | [] => none
      | e :: cs2 =>
        match escChar e with
        | some ec => (parseStringAux cs2).map (fun p => (ec :: p.1, p.2))
        | none => none
    else (parseStringAux cs).map (fun p => (c :: p.1, p.2))

/-- Parse a nonempty digit run. -/
def parseDigits (l : List Char) : Option (Nat × List Char) :=
  let ds := l.takeWhile (fun c => c.isDigit)
  if ds.isEmpty then none
  else some (ds.foldl (fun acc c => acc * 10 + (c.toNat - 48)) 0,
             l.dropWhile (fun c => c.isDigit))

mutual

/-- Parse one JSON value; returns it and the unconsumed rest. -/
def parseValue : Nat → List Char → Option (JVal × List Char)
  | 0, _ => none
  | fuel + 1, input =>
    match skipWs input with
    | [] => none
    | c :: cs =>
      if c == '"' then
        (parseStringAux cs).map (fun p => (JVal.jstr (String.mk p.1), p.2))
      else if c == '{' then
        (parseMembers fuel true cs).map (fun p => (JVal.jobj p.1, p.2))
      else if c == '[' then
        (parseElems fuel true cs).map (fun p => (JVal.jarr p.1, p.2))
      else if (c :: cs).take 4 == "true".data then
        some (JVal.jbool true, (c :: cs).drop 4)
      else if (c :: cs).take 5 == "false".data then
        some (JVal.jbool false, (c :: cs).drop 5)
      else if (c :: cs).take 4 == "null".data then
        some (JVal.jnull, (c :: cs).drop 4)
      else if c == '-' then
        (parseDigits cs).map (fun p => (JVal.jnum (-(p.1 : Int)), p.2))
      else if c.isDigit then
        (parseDigits (c :: cs)).map (fun p => (JVal.jnum (p.1 : Int), p.2))
      else none

/-- Parse object members after `{` (`allowClose`: a closing `}` is legal
here, i.e. no member or comma is pending). -/
def parseMembers : Nat → Bool → List Char →
    Option (List (String × JVal) × List Char)
  | 0, _, _ => none
  | fuel + 1, allowClose, input =>
    match skipWs input with
    | [] => none
    | c :: cs =>
      if c == '}' && allowClose then some ([], cs)
      else if c == '"' then
        match parseStringAux cs with
        | none => none
        | some (keyChars, afterKey) =>
          match skipWs afterKey with
          | [] => none
          | d :: ds =>
            if d == ':' then
              match parseValue fuel ds with
              | none => none
              | some (v, afterVal) =>
                match skipWs afterVal with
                | [] => none
                | e :: es =>
                  if e == ',' then
                    (parseMembers fuel false es).map
                      (fun p => ((String.mk keyChars, v) :: p.1, p.2))
                  else if e == '}' then
                    some ([(String.mk keyChars, v)], es)
                  else none
            else none
      else none

/-- Parse array elements after `[`. -/
def parseElems : Nat → Bool → List Char → Option (List JVal × List Char)
  | 0, _, _ => none
  | fuel + 1, allowClose, input =>
    match skipWs input with
    | [] => none
    | c :: cs =>
      if c == ']' && allowClose then some ([], cs)
      else
        match parseValue fuel (c :: cs) with
        | none => none
        | some (v, afterVal) =>
          match skipWs afterVal with
          | [] => none
          | e :: es =>
            if e == ',' then
              (parseElems fuel false es).map (fun p => (v :: p.1, p.2))
            else if e == ']' then some ([v], es)
            else none

end

/-- `json.loads`: parse the whole string as one JSON value, allowing
surrounding whitespace only. -/
def json_loads (s : String) : Option JVal :=
  match parseValue (s.length + 1) s.data with
  | some (v, rest) => if skipWs rest == [] then some v else none
  | none => none

/-- Python `s.strip()`. -/
def pyStrip (s : String) : String :=
  String.mk (((s.data.dropWhile Char.isWhitespace).reverse.dropWhile
    Char.isWhitespace).reverse)

/-- `re.search(r'\{.*\}', text, re.DOTALL)`: with the greedy `.*` this
matches from the first `{` of the text to the *last* `}` (provided that
`}` comes after the `{`). -/
def greedySlice (s : String) : Option String :=
  let cs := s.data
  match cs.findIdx? (fun c => c == '{') with
  | none => none
  | some i =>
    match cs.reverse.findIdx? (fun c => c == '}') with
    | none => none
    | some rj =>
      let j := cs.length - 1 - rj
      if i < j then some (String.mk ((cs.drop i).take (j - i + 1)))
      else none

/-- Lines 150-164 of `product_requester.py`: strip the response text,
try a direct `json.loads`, and on failure re-parse the greedy
first-`{`-to-last-`}` slice; `none` models the `GenerationFailure`
paths (ValueError / JSONDecodeError, both caught by the outer
`except`). -/
def extract_product_json (responseText : String) : Option JVal :=
  let t := pyStrip responseText
  match json_loads t with
  | some v => some v
  | none =>
    match greedySlice t with
    | some sub => json_loads sub
    | none => none

/-- `get_product_info_from_openai`, with the chat-completion call
abstracted as its outcome: `none` when the service call raised (the
outer `except` returns `None`), `some text` when it returned a message
body. -/
def get_product_info_from_openai (serviceResponse : Option String) :
    Option JVal :=
  match serviceResponse with
  | none => none
  | some text => extract_product_json text

/-- Outcome of one `add_new_product` call: the returned boolean, the
resulting store contents, and whether `save_products` ran. -/
structure AddResult where
  success : Bool
  store : List Record
  saved : Bool
deriving DecidableEq, Repr

/-- `product.get('Title', '')`. -/
def titleOf (r : Record) : String :=
  (getField r "Title").getD ""

/-- `add_new_product` (lines 170-214), with its two I/O collaborators
abstracted as values: `productData` is what
`get_product_info_from_openai` produced and `existing` is what
`load_existing_products` returned.  Missing API key or failed
generation return early; a case-insensitive `Title` collision returns
`False` without appending or saving; otherwise the record is appended
and `save_products` runs. -/
def add_new_product (title : String) (apiKey : Option String)
    (productData : Option Record) (existing : List Record) : AddResult :=
  match apiKey with
  | none => ⟨false, existing, false⟩
  | some _ =>
    match productData with
    | none => ⟨false, existing, false⟩
    | some data =>
      if existing.any (fun ex => pyLower (titleOf ex) == pyLower title) then
        ⟨false, existing, false⟩
      else
        ⟨true, existing ++ [data], true⟩

/-! ## The `--product` CLI branch of `generate_product_docs.py` -/

/-- Names bound at module level of `generate_product_docs.py` by the
time the `__main__` block runs (imports, the module-level `products`,
the five function definitions, `main`, and `sys` imported inside the
block).  `load_products` and `os` are *not* among them: `os` is only
imported locally inside `main()`, and `load_products` is defined
nowhere. -/
def generateDocsModuleNames : List String :=
  ["json", "re", "Document", "Inches", "Pt", "WD_ALIGN_PARAGRAPH",
   "OxmlElement", "qn", "products", "clean_filename", "add_formatted_text",
   "is_title_field", "format_field_name", "add_table",
   "create_product_document", "main", "sys"]

/-- Result of the single-product CLI mode. -/
inductive CliOutcome where
  | savedDoc (path : String)
  | notFoundExit (code : Nat)
deriving DecidableEq, Repr

/-- The `--product <name>` branch of the `__main__` block
(lines 310-339).  Its first statement evaluates `load_products()`; when
that name is unbound the branch dies with a NameError before any
matching happens.  Were the name bound, the branch would match `name`
case-insensitively against `Title`, save one document for the first
match, and otherwise print an error and `sys.exit(1)`. -/
def singleProductMode (productName : String) (products : List Record) :
    Except String CliOutcome :=
  if generateDocsModuleNames.contains "load_products" then
    match products.find?
        (fun p => pyLower ((getField p "Title").getD "") == pyLower productName) with
    | some target =>
      Except.ok (CliOutcome.savedDoc
        ("Product_Documents/" ++ clean_filename ((getField target "Title").getD "") ++ ".docx"))
    | none => Except.ok (CliOutcome.notFoundExit 1)
  else
    Except.error "NameError: name 'load_products' is not defined"

/-! ## Supporting lemmas -/

/-- The keys of a group-collect are exactly the present-and-nonempty
members of the membership set, in the set's declaration order. -/
theorem collectGroup_keys (fs : List String) (r : Record) :
    (collectGroup fs r).map Prod.fst = fs.filter (fun f => truthyField r f) := by
  induction fs with
  | nil => rfl
  | cons f rest ih =>
    simp only [collectGroup, List.filterMap_cons, List.filter_cons, truthyField] at ih ⊢
    cases hg : getField r f with
    | none => simpa [hg] using ih
    | some v =>
      by_cases hv : (v != "") = true
      · simpa [hg, hv] using ih
      · simpa [hg, hv] using ih

set_option maxHeartbeats 2000000 in
/-- Every table instruction a single loop iteration emits is one of the
two group tables, with rows produced by the whole-set scan. -/
theorem step_tables (r : Record) (key value : String) (processed : List String)
    (title : String) (pairs : List (String × String))
    (h : Instr.table title pairs ∈ (step r key value processed).1) :
    (title = "Growing Conditions" ∧ pairs = collectGroup table1_fields r) ∨
    (title = "Plant Characteristics" ∧ pairs = collectGroup table2_fields r) := by
  rw [step.eq_def] at h
  by_cases c1 : ((value == "") || processed.contains key) = true
  case pos => rw [if_pos c1] at h; exact (List.not_mem_nil _ h).elim
  case neg =>
  rw [if_neg c1] at h
  by_cases c2 : ((format_field_name key).isNone) = true
  case pos => rw [if_pos c2] at h; exact (List.not_mem_nil _ h).elim
  case neg =>
  rw [if_neg c2] at h
  by_cases c3 : (table1_fields.contains key && !(processed.contains key)) = true
  case pos =>
    rw [if_pos c3] at h
    repeat split at h
    all_goals simp at h
    all_goals exact Or.inl h
  case neg =>
  rw [if_neg c3] at h
  by_cases c4 : ((key == "SKU") || (key == "Scientific Name / mix %")) = true
  case pos =>
    rw [if_pos c4] at h
    repeat split at h
    all_goals simp at h
  case neg =>
  rw [if_neg c4] at h
  by_cases c5 : (containsSub (pyLower key) "description" || containsSub (pyLower key) "what is") = true
  case pos => rw [if_pos c5] at h; simp at h
  case neg =>
  rw [if_neg c5] at h
  by_cases c6 : (containsSub (pyLower key) "why chose this product title") = true
  case pos =>
    rw [if_pos c6] at h
    repeat split at h
    all_goals simp at h
  case neg =>
  rw [if_neg c6] at h
  by_cases c7 : (table2_fields.contains key && !(processed.contains key) && whyChoseDone r processed) = true
  case pos =>
    rw [if_pos c7] at h
    repeat split at h
    all_goals simp at h
    all_goals exact Or.inr h
  case neg =>
  rw [if_neg c7] at h
  by_cases c8 : (containsSub (pyLower key) "planting guide step") = true
  case pos => rw [if_pos c8] at h; simp at h
  case neg =>
  rw [if_neg c8] at h
  by_cases c9 : (pyStartsWith key "FAQ ") = true
  case pos => rw [if_pos c9] at h; simp at h
  case neg =>
  rw [if_neg c9] at h
  by_cases c10 : (containsSub (pyLower key) "why chose this product" && !(containsSub (pyLower key) "title")) = true
  case pos => rw [if_pos c10] at h; exact (List.not_mem_nil _ h).elim
  case neg =>
  rw [if_neg c10] at h
  by_cases c11 : (!(processed.contains key)) = true
  case pos =>
    rw [if_pos c11] at h
    repeat split at h
    all_goals simp at h
  case neg =>
  rw [if_neg c11] at h
  exact (List.not_mem_nil _ h).elim

/-- Every table instruction the field loop emits is one of the two
group tables, with rows produced by the whole-set scan. -/
theorem processFields_tables (r : Record) (fields : List (String × String))
    (processed : List String) (title : String) (pairs : List (String × String))
    (h : Instr.table title pairs ∈ (processFields r fields processed).1) :
    (title = "Growing Conditions" ∧ pairs = collectGroup table1_fields r) ∨
    (title = "Plant Characteristics" ∧ pairs = collectGroup table2_fields r) := by
  induction fields generalizing processed with
  | nil => simp [processFields] at h
  | cons fv rest ih =>
    obtain ⟨key, value⟩ := fv
    simp only [processFields] at h
    rw [List.mem_append] at h
    rcases h with h | h
    · exact step_tables r key value processed title pairs h
    · exact ih _ h

/-- A Growing-Conditions member that is reached unconsumed with a truthy
value triggers the group-emit of lines 145-154. -/
theorem step_growing_conditions (r : Record) (key value : String)
    (processed : List String) (hk : key ∈ table1_fields)
    (hp : key ∉ processed) (hv : value ≠ "") :
    step r key value processed =
      (if collectGroup table1_fields r != [] then
         [Instr.table "Growing Conditions" (collectGroup table1_fields r)]
       else [],
       addAll processed ((collectGroup table1_fields r).map Prod.fst)) := by
  have hv' : (value == "") = false := by
    simp [hv]
  simp only [table1_fields] at hk
  fin_cases hk <;>
    simp +decide [step, hv', hp, format_field_name, skip_fields]

/-! ## Claim theorems -/

/-- Record exercising the gate-closed fallthrough followed by the
group-collect: "Uses" precedes the unconsumed "Why chose ... Title 1",
and "Color" arrives after the pair has been consumed. -/
def c1Record : Record :=
  [("Title", "P"), ("Uses", "U"), ("Why chose this product Title 1", "T1"),
   ("Why chose this product 1", "B1"), ("Color", "C")]

/-- C1: the at-most-once emission invariant FAILS on the code.  In
`c1Record` the field "Uses" is rendered twice: first as a generic
labeled paragraph (the Plant-Characteristics gate is closed when "Uses"
is reached, and the closed gate falls through to the generic rule,
consuming the field), and then again inside the Plant Characteristics
table, because the group-collect loop of lines 218-221 checks only
presence and truthiness in the record, never the consumed-fields set. -/
theorem c1_uses_field_rendered_twice :
    Instr.labeledParagraph "Uses" "U" ∈ (create_product_document c1Record).1 ∧
    Instr.table "Plant Characteristics" [("Uses", "U"), ("Color", "C")] ∈
      (create_product_document c1Record).1 := by decide

/-- Record with a Plant-Characteristics member reached while an existing
Why-chose title is still unconsumed. -/
def c2Record : Record :=
  [("Title", "P"), ("Uses", "U"), ("Why chose this product Title 1", "T1")]

/-- C2 counterexample: the claim says that with the gate closed the
field is deferred — no render instruction, not marked consumed.  On
`c2Record` the code instead emits a labeled paragraph for "Uses" and
adds it to the consumed set. -/
theorem c2_gate_closed_not_deferred_cex :
    Instr.labeledParagraph "Uses" "U" ∈ (create_product_document c2Record).1 ∧
    "Uses" ∈ (create_product_document c2Record).2 := by decide

/-- C2 amended: for every nonempty value assignment, a
Plant-Characteristics field reached while an existing "Why chose this
product Title i" is unconsumed is NOT deferred — the closed gate falls
through the remaining rules, so the field is rendered as a generic
labeled paragraph and marked consumed (first conjunct).  The gate only
inspects title fields that exist in the record, so a record with no
Why-chose titles emits the Plant Characteristics table (second
conjunct). -/
theorem c2_gate_fallthrough_amended (u v t : String)
    (hu : u ≠ "") (hv : v ≠ "") (ht : t ≠ "") :
    create_product_document
        [("Title", "P"), ("Uses", u), ("Why chose this product Title 1", t)] =
      ([Instr.titleInstr "P", Instr.labeledParagraph "Uses" u],
       ["Uses", "Title"]) ∧
    create_product_document [("Title", "P"), ("Sun/Shade", u), ("Uses", v)] =
      ([Instr.titleInstr "P",
        Instr.table "Plant Characteristics" [("Sun/Shade", u), ("Uses", v)]],
       ["Uses", "Sun/Shade", "Title"]) := by
  have hu' : (u == "") = false := by simp [hu]
  have hv' : (v == "") = false := by simp [hv]
  have ht' : (t == "") = false := by simp [ht]
  have hl : lastToken "Why chose this product Title 1" = "1" := by decide
  constructor <;>
    simp +decide [create_product_document, processFields, step, getField,
      hasField, truthyField, whyChoseDone, collectGroup, List.find?,
      List.filterMap_cons, addField, addAll, table1_fields, table2_fields,
      format_field_name, skip_fields, hu, hv, ht, hu', hv', ht', hl]

/-- C2 witness: the amended build equalities at concrete values. -/
theorem c2_gate_fallthrough_amended_witness :
    create_product_document
        [("Title", "P"), ("Uses", "U"), ("Why chose this product Title 1", "T1")] =
      ([Instr.titleInstr "P", Instr.labeledParagraph "Uses" "U"],
       ["Uses", "Title"]) ∧
    create_product_document [("Title", "P"), ("Sun/Shade", "U"), ("Uses", "V")] =
      ([Instr.titleInstr "P",
        Instr.table "Plant Characteristics" [("Sun/Shade", "U"), ("Uses", "V")]],
       ["Uses", "Sun/Shade", "Title"]) :=
  c2_gate_fallthrough_amended "U" "V" "T1" (by decide) (by decide) (by decide)

/-- Record with a Why-chose title whose paired content field is
absent. -/
def c3CexRecord : Record :=
  [("Title", "P"), ("Why chose this product Title 2", "T2")]

/-- C3 counterexample: the claim says a title field with a missing
content field is still marked consumed.  On `c3CexRecord` no
instruction is emitted for "Why chose this product Title 2" (correct)
but the field is NOT in the final consumed set: `processed_fields.add`
sits inside the `if content_key in product_data ...` block. -/
theorem c3_missing_content_title_not_consumed_cex :
    "Why chose this product Title 2" ∉ (create_product_document c3CexRecord).2 ∧
    (create_product_document c3CexRecord).1 = [Instr.titleInstr "P"] := by decide

/-- C3 amended: for every nonempty value assignment, "Why chose this
product Title N" pairs with content field "Why chose this product N"
only — title 3 emits `Heading(3, t3)` then `Paragraph(b3)` and both
fields are consumed; title 2 (content 2 absent) emits nothing, does not
grab content 4, and is NOT marked consumed; the orphaned body 4 is
silently consumed. -/
theorem c3_pairing_amended (t3 b3 t2 b4 : String)
    (h3 : t3 ≠ "") (hb3 : b3 ≠ "") (h2 : t2 ≠ "") (hb4 : b4 ≠ "") :
    create_product_document
        [("Title", "P"), ("Why chose this product Title 3", t3),
         ("Why chose this product 3", b3),
         ("Why chose this product Title 2", t2),
         ("Why chose this product 4", b4)] =
      ([Instr.titleInstr "P", Instr.heading 3 t3, Instr.paragraph b3],
       ["Why chose this product 4", "Why chose this product 3",
        "Why chose this product Title 3", "Title"]) := by
  have h3' : (t3 == "") = false := by simp [h3]
  have hb3' : (b3 == "") = false := by simp [hb3]
  have h2' : (t2 == "") = false := by simp [h2]
  have hb4' : (b4 == "") = false := by simp [hb4]
  have hl3 : lastToken "Why chose this product Title 3" = "3" := by decide
  have hl2 : lastToken "Why chose this product Title 2" = "2" := by decide
  simp +decide [create_product_document, processFields, step, getField,
    hasField, truthyField, whyChoseDone, collectGroup, List.find?,
    List.filterMap_cons, addField, addAll, table1_fields, table2_fields,
    format_field_name, skip_fields, h3, hb3, h2, hb4, h3', hb3', h2',
    hb4', hl3, hl2]

/-- C3 witness: the amended build equality at concrete values. -/
theorem c3_pairing_amended_witness :
    create_product_document
        [("Title", "P"), ("Why chose this product Title 3", "T3"),
         ("Why chose this product 3", "B3"),
         ("Why chose this product Title 2", "T2"),
         ("Why chose this product 4", "B4")] =
      ([Instr.titleInstr "P", Instr.heading 3 "T3", Instr.paragraph "B3"],
       ["Why chose this product 4", "Why chose this product 3",
        "Why chose this product Title 3", "Title"]) :=
  c3_pairing_amended "T3" "B3" "T2" "B4"
    (by decide) (by decide) (by decide) (by decide)

/-- Record with an empty-valued field. -/
def c4Record : Record := [("Title", "P"), ("Color", "")]

/-- C4 counterexample: the claim says an empty-valued field is marked
consumed.  On `c4Record` the empty "Color" emits nothing (correct) but
is NOT added to the consumed set: line 136 is a bare `continue`. -/
theorem c4_empty_not_marked_cex :
    "Color" ∉ (create_product_document c4Record).2 ∧
    (create_product_document c4Record).1 = [Instr.titleInstr "P"] := by decide

/-- C4 amended: a field with an empty value is skipped outright — the
loop iteration emits no instruction and leaves the consumed-fields set
unchanged (it is not marked consumed). -/
theorem c4_empty_field_skipped (r : Record) (key : String)
    (rest : List (String × String)) (processed : List String) :
    processFields r ((key, "") :: rest) processed =
      processFields r rest processed := rfl

/-- Record holding exactly three nonempty Growing-Conditions members
("Soil pH", "Days to Maturity", "Planting Depth"), the first of which is
encountered before the other two, plus an unrelated FAQ field. -/
def c5Record : Record :=
  [("Title", "Blue Flax"), ("Soil pH", "6.5"), ("FAQ 1", "Q A"),
   ("Days to Maturity", "90"), ("Planting Depth", "1/4 inch")]

/-- C5: (i) in general, a Growing-Conditions member reached unconsumed
with a truthy value triggers the whole-set scan — every
present-and-nonempty member of the 7-name set is collected regardless of
its position, all collected members are marked consumed (`addAll`), and
one `Table("Growing Conditions", collected)` instruction is emitted when
the collection is nonempty; (ii) on `c5Record` (exactly 3 nonempty
members) the build emits exactly one Growing-Conditions table holding
exactly those 3 pairs, and all three are consumed. -/
theorem c5_growing_conditions_group :
    (∀ (r : Record) (key value : String) (processed : List String),
        key ∈ table1_fields → key ∉ processed → value ≠ "" →
        step r key value processed =
          (if collectGroup table1_fields r != [] then
             [Instr.table "Growing Conditions" (collectGroup table1_fields r)]
           else [],
           addAll processed ((collectGroup table1_fields r).map Prod.fst))) ∧
    (create_product_document c5Record).1.filter
        (fun i => match i with
          | Instr.table t _ => t == "Growing Conditions"
          | _ => false) =
      [Instr.table "Growing Conditions"
        [("Soil pH", "6.5"), ("Days to Maturity", "90"),
         ("Planting Depth", "1/4 inch")]] ∧
    "Soil pH" ∈ (create_product_document c5Record).2 ∧
    "Days to Maturity" ∈ (create_product_document c5Record).2 ∧
    "Planting Depth" ∈ (create_product_document c5Record).2 := by
  refine ⟨step_growing_conditions, ?_, ?_, ?_, ?_⟩ <;> decide

/-- C5 witness: the general conjunct applied to `c5Record` at its first
Growing-Conditions member. -/
theorem c5_growing_conditions_group_witness :
    step c5Record "Soil pH" "6.5" ["Title"] =
      (if collectGroup table1_fields c5Record != [] then
         [Instr.table "Growing Conditions" (collectGroup table1_fields c5Record)]
       else [],
       addAll ["Title"] ((collectGroup table1_fields c5Record).map Prod.fst)) :=
  c5_growing_conditions_group.1 c5Record "Soil pH" "6.5" ["Title"]
    (by decide) (by decide) (by decide)

/-- C6: `clean_filename` on the spec's example — parentheses stripped,
whitespace runs collapsed to single underscores, no leading or trailing
underscore. -/
theorem c6_clean_filename_blue_flax :
    clean_filename "Blue Flax (Linum lewisii)" = "Blue_Flax_Linum_lewisii" := by
  decide

/-- C7 counterexample: the response text `{"a": 1} }` contains the
well-formed object substring `{"a": 1}`, yet the parser fails: the
direct parse rejects the trailing `}` and the greedy `\{.*\}` slice runs
from the first `{` to the *last* `}`, which is again unparseable.  So
the code does not "extract the first well-formed JSON object substring"
and can fail even when a parseable object is present. -/
theorem c7_greedy_extraction_cex :
    get_product_info_from_openai (some "\x7b\"a\": 1\x7d \x7d") = none ∧
    json_loads "\x7b\"a\": 1\x7d" = some (JVal.jobj [("a", JVal.jnum 1)]) ∧
    infixAux "\x7b\"a\": 1\x7d".data "\x7b\"a\": 1\x7d \x7d".data = true :=
  ⟨rfl, rfl, by decide⟩

/-- C7 amended: the parser tolerates leading/trailing non-JSON text by
re-parsing the slice from the first `{` to the last `}` of the stripped
response; it fails when the service call errors, and when neither the
whole response nor that greedy slice parses — even if some well-formed
object substring exists (see the counterexample). -/
theorem c7_extraction_amended :
    get_product_info_from_openai none = none ∧
    get_product_info_from_openai
        (some "Here is the JSON:\n\x7b\"a\": 1\x7d\nThanks") =
      some (JVal.jobj [("a", JVal.jnum 1)]) ∧
    get_product_info_from_openai (some "no object here") = none ∧
    get_product_info_from_openai (some "\x7b\"a\": 1\x7d \x7d") = none :=
  ⟨rfl, rfl, rfl, rfl⟩

/-- C8: a case-insensitive `Title` collision with a stored record makes
`add_new_product` return failure, leave the collection unchanged, and
never invoke `save_products` — for every API key and generation
outcome. -/
theorem c8_duplicate_title_skipped (title : String) (apiKey : Option String)
    (productData : Option Record) (existing : List Record)
    (h : existing.any (fun ex => pyLower (titleOf ex) == pyLower title) = true) :
    add_new_product title apiKey productData existing =
      ⟨false, existing, false⟩ := by
  cases apiKey <;> cases productData <;> simp [add_new_product, h]

/-- C8 witness: adding "Blue Flax" over a stored "blue flax". -/
theorem c8_duplicate_title_skipped_witness :
    add_new_product "Blue Flax" (some "sk-key") (some [("Title", "Blue Flax")])
        [[("Title", "blue flax")]] =
      ⟨false, [[("Title", "blue flax")]], false⟩ :=
  c8_duplicate_title_skipped "Blue Flax" (some "sk-key")
    (some [("Title", "Blue Flax")]) [[("Title", "blue flax")]] (by decide)

/-- C9: the `--product <name>` mode NEVER renders or reports
product-not-found: its first statement calls `load_products()`, a name
bound nowhere in `generate_product_docs.py`, so every invocation dies
with a NameError regardless of the requested name and of the stored
products. -/
theorem c9_single_product_mode_name_error (productName : String)
    (products : List Record) :
    singleProductMode productName products =
      Except.error "NameError: name 'load_products' is not defined" := rfl

/-- C10: every table instruction any build emits has its rows keyed in
the declaration order of the corresponding membership set — the row keys
are exactly the present-and-nonempty members, as filtered from the
7-name (Growing Conditions) or 8-name (Plant Characteristics) list in
list order, not in record order. -/
theorem c10_table_rows_declaration_order (r : Record) (title : String)
    (pairs : List (String × String))
    (h : Instr.table title pairs ∈ (create_product_document r).1) :
    (title = "Growing Conditions" ∧
      pairs.map Prod.fst = table1_fields.filter (fun f => truthyField r f)) ∨
    (title = "Plant Characteristics" ∧
      pairs.map Prod.fst = table2_fields.filter (fun f => truthyField r f)) := by
  have h2 : Instr.table title pairs ∈ (processFields r r ["Title"]).1 := by
    simpa [create_product_document] using h
  rcases processFields_tables r r ["Title"] title pairs h2 with ⟨ht, hp⟩ | ⟨ht, hp⟩
  · exact Or.inl ⟨ht, by rw [hp, collectGroup_keys]⟩
  · exact Or.inr ⟨ht, by rw [hp, collectGroup_keys]⟩

/-- Record whose Growing-Conditions members appear in the reverse of
declaration order. -/
def c10Record : Record :=
  [("Title", "P"), ("Planting Depth", "D"), ("Soil pH", "H")]

/-- C10 witness: on `c10Record` the emitted table's rows come out in
declaration order ("Soil pH" before "Planting Depth"), the reverse of
the record order. -/
theorem c10_table_rows_declaration_order_witness :
    ("Growing Conditions" = "Growing Conditions" ∧
      ([("Soil pH", "H"), ("Planting Depth", "D")] : List (String × String)).map
          Prod.fst =
        table1_fields.filter (fun f => truthyField c10Record f)) ∨
    ("Growing Conditions" = "Plant Characteristics" ∧
      ([("Soil pH", "H"), ("Planting Depth", "D")] : List (String × String)).map
          Prod.fst =
        table2_fields.filter (fun f => truthyField c10Record f)) :=
  c10_table_rows_declaration_order c10Record "Growing Conditions"
    [("Soil pH", "H"), ("Planting Depth", "D")] (by decide)

end PDP
